import Mathlib

/-!
# Record editor and contact manager components

A shallow embedding of the three components of the repository:

* `lwcDemo.js`            — `LwcDemo`, the view/edit record form,
* `contactManagerLWC.js`  — `ContactManager`, the contact list and draft (LWC),
* `ContactManagerHelper.js` — the Aura helper with `fetchContacts` and `saveContact`.

Component instances are records of their fields; every effect a handler has on the
outside world (a toast event dispatched, a remote call issued, a console line) is
appended to a trace kept in the instance, so that "exactly one notification" and
"exactly one new request" are statements about lists.  A promise or an Aura action is
modelled by its continuations: the function that issues the call, and one function per
callback, applied to the state in which the callback runs.
-/

namespace JS

/-- A JavaScript value of the kinds the string-typed properties of the components can
hold: a missing value (`undefined` or `null`) or a string. -/
inductive JSVal where
  | undefined
  | null
  | str (s : String)
  deriving DecidableEq, Repr

/-- The error thrown by a property access or method call on a missing value. -/
inductive JSError where
  | typeError (msg : String)
  deriving DecidableEq, Repr

/-- ToBoolean: missing values and the empty string are falsy. -/
def JSVal.truthy : JSVal → Bool
  | .undefined => false
  | .null => false
  | .str s => s != ""

/-- The operator `a || b`. -/
def JSVal.or (a b : JSVal) : JSVal :=
  if a.truthy then a else b

/-- ToString, as applied by a template literal and by a computed property key. -/
def JSVal.toStr : JSVal → String
  | .undefined => "undefined"
  | .null => "null"
  | .str s => s

/-- Lower-case mapping of one code point (Unicode default case conversion), exact on
every code point whose image contains an ASCII letter: `A`–`Z`, U+0130 (which becomes
`i` followed by U+0307) and U+212A KELVIN SIGN (which becomes `k`).  Every other code
point is mapped to non-ASCII text or to itself, and is left as it is here. -/
def toLowerCodePoint (c : Char) : List Char :=
  if 65 ≤ c.toNat ∧ c.toNat ≤ 90 then [Char.ofNat (c.toNat + 32)]
  else if c.toNat = 0x130 then ['i', Char.ofNat 0x307]
  else if c.toNat = 0x212A then ['k']
  else [c]

/-- Method `String.prototype.toLowerCase` on a string. -/
def stringToLowerCase (s : String) : String :=
  String.mk (s.data.flatMap toLowerCodePoint)

/-- The method call `v.toLowerCase()`: a `TypeError` on a missing value. -/
def JSVal.toLowerCase : JSVal → Except JSError JSVal
  | .str s => .ok (.str (stringToLowerCase s))
  | .undefined => .error (.typeError "Cannot read properties of undefined")
  | .null => .error (.typeError "Cannot read properties of null")

/-- Case-insensitive match of `s` against a token of lower-case ASCII letters: the same
length, and each character is the token's letter or its upper-case form. -/
def caseInsensitiveMatch : List Char → List Char → Bool
  | [], [] => true
  | t :: ts, c :: cs => (c == t || c == Char.ofNat (t.toNat - 32)) && caseInsensitiveMatch ts cs
  | _, _ => false

/-- A plain object created by an object literal: its own properties in insertion order.
Its prototype is `Object.prototype`. -/
abbrev Obj := List (String × JSVal)

/-- The value of the own property `k` of the object, and `undefined` when the object has
no own property `k`.  The prototype chain is not consulted: the property read `o[k]` is
`Obj.read`. -/
def Obj.get (o : Obj) (k : String) : JSVal :=
  match o with
  | [] => .undefined
  | (k', v) :: rest => if k' = k then v else Obj.get rest k

/-- Test `Object.hasOwn(o, k)`: whether the object has an own property `k`. -/
def Obj.hasOwn (o : Obj) (k : String) : Bool :=
  match o with
  | [] => false
  | (k', _) :: rest => if k' = k then true else Obj.hasOwn rest k

/-- The names of the properties of `Object.prototype`, which every plain object
inherits.  All are writable data properties holding built-in functions, except
`__proto__`, an accessor whose getter returns the prototype and whose setter changes
the prototype when given an object or `null` and does nothing when given a string. -/
def objectPrototypeKeys : List String :=
  ["constructor", "__defineGetter__", "__defineSetter__", "hasOwnProperty",
   "__lookupGetter__", "__lookupSetter__", "isPrototypeOf", "propertyIsEnumerable",
   "toString", "valueOf", "__proto__", "toLocaleString"]

/-- What a property read on a plain object yields: a string or missing value, or the
member `k` of `Object.prototype` (a built-in function, and for `__proto__` the prototype
object itself), which is neither a string nor missing. -/
inductive Property where
  | value (v : JSVal)
  | inherited (k : String)
  deriving DecidableEq, Repr

/-- Property read `o[k]`: the own property when the object has it, else the member of
`Object.prototype` of that name when there is one, else `undefined`. -/
def Obj.read (o : Obj) (k : String) : Property :=
  if Obj.hasOwn o k then .value (Obj.get o k)
  else if k ∈ objectPrototypeKeys then .inherited k
  else .value .undefined

/-- Property write `o[k] = v` of a string `v`: overwrites the own property in place when
the object has it; otherwise, for the key `__proto__` the inherited setter runs, which
ignores a string and stores nothing, and for every other key the property is added
after the others. -/
def Obj.set (o : Obj) (k : String) (v : String) : Obj :=
  match o with
  | [] => if k = "__proto__" then [] else [(k, .str v)]
  | (k', v') :: rest =>
    if k' = k then (k', .str v) :: rest else (k', v') :: Obj.set rest k v

end JS

open JS

/-- The payload of `new ShowToastEvent({ title, message, variant })`. -/
structure ShowToastEvent where
  title : JSVal
  message : JSVal
  variant : JSVal
  deriving DecidableEq, Repr

/-- The fields of a `LwcDemo` instance, with the events it has dispatched so far. -/
structure LwcDemo where
  recordId : JSVal
  objectApiName : JSVal
  title : JSVal
  defaultMode : JSVal
  layout : JSVal
  columns : Nat
  formMode : JSVal
  dispatched : List ShowToastEvent
  deriving DecidableEq, Repr

/-- The `detail` of the record form's success event: the saved record, of which the
handler reads `id`. -/
structure SuccessDetail where
  id : JSVal
  deriving DecidableEq, Repr

/-- The success event of the record form; it always carries a `detail`. -/
structure SuccessEvent where
  detail : SuccessDetail
  deriving DecidableEq, Repr

/-- The `detail` of the record form's error event, of which the handler reads `message`. -/
structure ErrorDetail where
  message : JSVal
  deriving DecidableEq, Repr

/-- The error event of the record form; the handler reads `event.detail?.message`, so
the `detail` may be missing. -/
structure ErrorEvent where
  detail : Option ErrorDetail
  deriving DecidableEq, Repr

namespace LwcDemo

/-- The instance as the class field initialisers leave it; `recordId` and
`objectApiName` are supplied by the host page. -/
def init (recordId objectApiName : JSVal) : LwcDemo :=
  { recordId := recordId
    objectApiName := objectApiName
    title := .str "LWC Lesson (Lite)"
    defaultMode := .str "view"
    layout := .str "Compact"
    columns := 2
    formMode := .str "view"
    dispatched := [] }

/-- Method `connectedCallback()`:
`this.formMode = (this.defaultMode || 'view').toLowerCase() === 'edit' ? 'edit' : 'view'`. -/
def connectedCallback (self : LwcDemo) : Except JSError LwcDemo := do
  let lowered ← (self.defaultMode.or (.str "view")).toLowerCase
  pure { self with formMode := if lowered = .str "edit" then .str "edit" else .str "view" }

/-- Getter `computedTitle()`: `this.title || 'LWC Lesson (Lite)'`. -/
def computedTitle (self : LwcDemo) : JSVal :=
  self.title.or (.str "LWC Lesson (Lite)")

/-- Getter `layoutType()`:
`const v = (this.layout || 'Compact').toLowerCase(); return v === 'full' ? 'Full' : 'Compact'`. -/
def layoutType (self : LwcDemo) : Except JSError JSVal := do
  let v ← (self.layout.or (.str "Compact")).toLowerCase
  pure (if v = .str "full" then .str "Full" else .str "Compact")

/-- Getter `viewVariant()`. -/
def viewVariant (self : LwcDemo) : JSVal :=
  if self.formMode = .str "view" then .str "brand" else .str "neutral"

/-- Getter `editVariant()`. -/
def editVariant (self : LwcDemo) : JSVal :=
  if self.formMode = .str "edit" then .str "brand" else .str "neutral"

/-- Handler `switchToView`. -/
def switchToView (self : LwcDemo) : LwcDemo :=
  { self with formMode := .str "view" }

/-- Handler `switchToEdit`. -/
def switchToEdit (self : LwcDemo) : LwcDemo :=
  { self with formMode := .str "edit" }

/-- Call `this.dispatchEvent(e)`: the event is appended to the trace. -/
def dispatchEvent (self : LwcDemo) (e : ShowToastEvent) : LwcDemo :=
  { self with dispatched := self.dispatched ++ [e] }

/-- Method `handleSubmit(event)`: the body is commented out. -/
def handleSubmit (self : LwcDemo) : LwcDemo :=
  self

/-- Method `handleSuccess(event)`: takes `event.detail.id || this.recordId`, sets the mode to
`'view'` and dispatches the "Saved" toast. -/
def handleSuccess (self : LwcDemo) (event : SuccessEvent) : LwcDemo :=
  let recId := event.detail.id.or self.recordId
  let self1 := { self with formMode := .str "view" }
  dispatchEvent self1
    { title := .str "Saved"
      message := .str ("Record " ++ recId.toStr ++ " was saved successfully")
      variant := .str "success" }

/-- Method `handleError(event)`: takes `event.detail?.message || 'There was a problem saving the
record.'` and dispatches the "Error" toast. -/
def handleError (self : LwcDemo) (event : ErrorEvent) : LwcDemo :=
  let detailMessage := match event.detail with
    | some d => d.message
    | none => JSVal.undefined
  let msg := detailMessage.or (.str "There was a problem saving the record.")
  dispatchEvent self
    { title := .str "Error"
      message := msg
      variant := .str "error" }

end LwcDemo

/-! ## `ContactManager` (LWC) -/

/-- A call to an imported Apex method, with its argument. -/
inductive ApexCall where
  | getContacts
  | saveContact (contact : Obj)
  deriving DecidableEq, Repr

/-- Object `event.target.dataset`, of which the handler reads `field`. -/
structure Dataset where
  field : JSVal
  deriving DecidableEq, Repr

/-- Object `event.target`: the input element, with its `data-field` attribute and its
value, which is always a string. -/
structure InputTarget where
  dataset : Dataset
  value : String
  deriving DecidableEq, Repr

/-- The change event of an input of the contact form. -/
structure InputEvent where
  target : InputTarget
  deriving DecidableEq, Repr

/-- The fields of a `ContactManager` instance, with the Apex calls it has issued and the
lines it has written with `console.error` so far. -/
structure ContactManager where
  contact : Obj
  contacts : List Obj
  apexCalls : List ApexCall
  console : List (String × JSVal)
  deriving DecidableEq, Repr

/-- How a promise settles. -/
inductive Settled (α : Type) where
  | fulfilled (value : α)
  | rejected (reason : JSVal)
  deriving DecidableEq, Repr

namespace ContactManager

/-- The instance as the class field initialisers leave it: `contact = {}`,
`contacts = []`. -/
def init : ContactManager :=
  { contact := [], contacts := [], apexCalls := [], console := [] }

/-- Method `loadContacts()`, up to the return of `getContacts()`: the call is issued and the
two callbacks are registered. -/
def loadContacts (self : ContactManager) : ContactManager :=
  { self with apexCalls := self.apexCalls ++ [.getContacts] }

/-- The `.then(result => { this.contacts = result; })` callback of `loadContacts`. -/
def loadContactsThen (self : ContactManager) (result : List Obj) : ContactManager :=
  { self with contacts := result }

/-- The `.catch(error => { console.error(...) })` callback of `loadContacts`. -/
def loadContactsCatch (self : ContactManager) (error : JSVal) : ContactManager :=
  { self with console := self.console ++ [("Error fetching contacts:", error)] }

/-- The promise of `loadContacts` settles: the matching callback runs. -/
def loadContactsSettled (self : ContactManager) (p : Settled (List Obj)) : ContactManager :=
  match p with
  | .fulfilled result => loadContactsThen self result
  | .rejected error => loadContactsCatch self error

/-- Method `connectedCallback()`: `this.loadContacts()`. -/
def connectedCallback (self : ContactManager) : ContactManager :=
  loadContacts self

/-- Method `handleInputChange(event)`:
`this.contact[event.target.dataset.field] = event.target.value`. -/
def handleInputChange (self : ContactManager) (event : InputEvent) : ContactManager :=
  let field := event.target.dataset.field
  { self with contact := Obj.set self.contact field.toStr event.target.value }

/-- Method `saveContact()`, up to the return of the Apex `saveContact({ contact: this.contact })`:
the call is issued and the two callbacks are registered. -/
def saveContact (self : ContactManager) : ContactManager :=
  { self with apexCalls := self.apexCalls ++ [.saveContact self.contact] }

/-- The `.then(() => { this.contact = {}; this.loadContacts(); })` callback of
`saveContact`. -/
def saveContactThen (self : ContactManager) : ContactManager :=
  let self1 := { self with contact := [] }
  loadContacts self1

/-- The `.catch(error => { console.error(...) })` callback of `saveContact`. -/
def saveContactCatch (self : ContactManager) (error : JSVal) : ContactManager :=
  { self with console := self.console ++ [("Error saving contact:", error)] }

/-- The promise of `saveContact` settles: the matching callback runs. -/
def saveContactSettled (self : ContactManager) (p : Settled Unit) : ContactManager :=
  match p with
  | .fulfilled _ => saveContactThen self
  | .rejected error => saveContactCatch self error

end ContactManager

/-- Everything that can run code of a `ContactManager` instance: a lifecycle or template
call, or the settlement of a promise it is waiting on. -/
inductive ContactManagerEvent where
  | connected
  | inputChange (event : InputEvent)
  | save
  | saveSettled (p : Settled Unit)
  | loadSettled (p : Settled (List Obj))
  deriving DecidableEq, Repr

/-- One turn of the event loop on a `ContactManager` instance. -/
def ContactManager.step (self : ContactManager) : ContactManagerEvent → ContactManager
  | .connected => self.connectedCallback
  | .inputChange event => self.handleInputChange event
  | .save => self.saveContact
  | .saveSettled p => self.saveContactSettled p
  | .loadSettled p => self.loadContactsSettled p

/-! ## `ContactManagerHelper` (Aura) -/

namespace ContactManagerHelper

/-- A server action taken with `component.get("c.…")`, with the parameters set on it. -/
inductive Action where
  | getContacts
  | saveContact (contact : Obj)
  deriving DecidableEq, Repr

/-- The attributes `v.contact` and `v.contacts` of the component, with the actions
passed to `$A.enqueueAction` so far. -/
structure Component where
  contact : Obj
  contacts : List Obj
  enqueued : List Action
  deriving DecidableEq, Repr

/-- The response handed to an action callback: `getState()` and `getReturnValue()`. -/
structure Response (α : Type) where
  state : String
  returnValue : α
  deriving DecidableEq, Repr

/-- Call `$A.enqueueAction(action)`. -/
def enqueueAction (component : Component) (action : Action) : Component :=
  { component with enqueued := component.enqueued ++ [action] }

/-- Method `fetchContacts(component)`, up to `$A.enqueueAction(action)`. -/
def fetchContacts (component : Component) : Component :=
  enqueueAction component .getContacts

/-- The callback set by `fetchContacts`: on state `"SUCCESS"` it sets `v.contacts` to the
return value, and on any other state it does nothing. -/
def fetchContactsCallback (component : Component) (response : Response (List Obj)) :
    Component :=
  if response.state = "SUCCESS" then
    { component with contacts := response.returnValue }
  else
    component

/-- Method `saveContact(component)`, up to `$A.enqueueAction(action)`; the action carries
`{ contact: component.get("v.contact") }`. -/
def saveContact (component : Component) : Component :=
  enqueueAction component (.saveContact component.contact)

/-- The callback set by `saveContact`: on state `"SUCCESS"` it calls `fetchContacts` and
then sets `v.contact` to `{ 'sobjectType': 'Contact' }`, and on any other state it does
nothing. -/
def saveContactCallback (component : Component) (response : Response JSVal) : Component :=
  if response.state = "SUCCESS" then
    let component1 := fetchContacts component
    { component1 with contact := [("sobjectType", .str "Contact")] }
  else
    component

/-- Everything that can run code of the helper on a component. -/
inductive Event where
  | fetch
  | fetchResponse (response : Response (List Obj))
  | save
  | saveResponse (response : Response JSVal)
  deriving DecidableEq, Repr

/-- One turn of the event loop on the component. -/
def step (component : Component) : Event → Component
  | .fetch => fetchContacts component
  | .fetchResponse response => fetchContactsCallback component response
  | .save => saveContact component
  | .saveResponse response => saveContactCallback component response

end ContactManagerHelper

/-! ## Lemmas on the JavaScript model -/

namespace JS

theorem toNat_ofNat_of_lt (n : Nat) (h : n < 55296) : (Char.ofNat n).toNat = n := by
  have hv : n.isValidChar := Or.inl h
  simp only [Char.ofNat, dif_pos hv, Char.ofNatAux, Char.toNat]
  rfl

/-- A code point lower-cases to the single lower-case ASCII letter `x` (other than `k`)
exactly when it is `x` or the upper-case form of `x`. -/
theorem toLowerCodePoint_eq_singleton (c x : Char) (hx : 97 ≤ x.toNat ∧ x.toNat ≤ 122)
    (hk : x ≠ 'k') :
    toLowerCodePoint c = [x] ↔ (c = x ∨ c = Char.ofNat (x.toNat - 32)) := by
  constructor
  · intro h
    unfold toLowerCodePoint at h
    split_ifs at h with h1 h2 h3
    · right
      have hx2 : x = Char.ofNat (c.toNat + 32) := by simpa using h.symm
      have hn : x.toNat = c.toNat + 32 := by
        rw [hx2]; exact toNat_ofNat_of_lt _ (by omega)
      rw [hn, Nat.add_sub_cancel, Char.ofNat_toNat]
    · simp at h
    · exact absurd (by simpa using h.symm) hk
    · left; simpa using h
  · rintro (rfl | rfl)
    · unfold toLowerCodePoint
      rw [if_neg (by omega), if_neg (by omega), if_neg (by omega)]
    · have ht : (Char.ofNat (x.toNat - 32)).toNat = x.toNat - 32 :=
        toNat_ofNat_of_lt _ (by omega)
      unfold toLowerCodePoint
      rw [ht, if_pos (by omega), Nat.sub_add_cancel (by omega), Char.ofNat_toNat]

/-- The image of a code point is one code point, or `i` followed by U+0307. -/
theorem toLowerCodePoint_shape (c : Char) :
    (∃ y, toLowerCodePoint c = [y]) ∨ toLowerCodePoint c = ['i', Char.ofNat 0x307] := by
  unfold toLowerCodePoint
  split_ifs
  · exact Or.inl ⟨_, rfl⟩
  · exact Or.inr rfl
  · exact Or.inl ⟨_, rfl⟩
  · exact Or.inl ⟨_, rfl⟩

/-- Lower-casing a string gives a token of lower-case ASCII letters (without `k`) exactly
when the string matches the token case-insensitively. -/
theorem flatMap_toLowerCodePoint_eq_iff (cs ts : List Char)
    (hts : ∀ t ∈ ts, (97 ≤ t.toNat ∧ t.toNat ≤ 122) ∧ t ≠ 'k') :
    cs.flatMap toLowerCodePoint = ts ↔ caseInsensitiveMatch ts cs = true := by
  induction cs generalizing ts with
  | nil =>
    cases ts with
    | nil => simp [caseInsensitiveMatch]
    | cons t ts => simp [caseInsensitiveMatch]
  | cons c cs ih =>
    cases ts with
    | nil =>
      rcases toLowerCodePoint_shape c with ⟨y, hy⟩ | hp
      · simp [caseInsensitiveMatch, hy]
      · simp [caseInsensitiveMatch, hp]
    | cons t ts =>
      have ht := hts t (List.mem_cons_self _ _)
      have hts2 : ∀ u ∈ ts, (97 ≤ u.toNat ∧ u.toNat ≤ 122) ∧ u ≠ 'k' :=
        fun u hu => hts u (List.mem_cons_of_mem _ hu)
      have hsing := toLowerCodePoint_eq_singleton c t ht.1 ht.2
      rcases toLowerCodePoint_shape c with ⟨y, hy⟩ | hp
      · have hyt : y = t ↔ (c = t ∨ c = Char.ofNat (t.toNat - 32)) := by
          rw [← hsing, hy]; simp
        simp only [List.flatMap_cons, hy, List.singleton_append, List.cons.injEq,
          caseInsensitiveMatch, Bool.and_eq_true, Bool.or_eq_true, beq_iff_eq]
        rw [hyt, ih ts hts2]
      · have hne : ¬ (c = t ∨ c = Char.ofNat (t.toNat - 32)) := by
          rw [← hsing, hp]; simp
        simp only [List.flatMap_cons, hp, caseInsensitiveMatch, Bool.and_eq_true,
          Bool.or_eq_true, beq_iff_eq]
        constructor
        · intro h
          cases ts with
          | nil => simp at h
          | cons u us =>
            have hu := (hts u (by simp)).1
            have h2 : Char.ofNat 0x307 = u := by
              simp only [List.cons_append, List.nil_append, List.cons.injEq] at h
              exact h.2.1
            rw [← h2] at hu
            exact absurd hu (by decide)
        · intro h
          exact absurd h.1 hne

/-- Lower-casing a string gives `token` exactly when the string matches it
case-insensitively, for a token of lower-case ASCII letters without `k`. -/
theorem stringToLowerCase_eq_iff (s token : String)
    (htoken : ∀ t ∈ token.data, (97 ≤ t.toNat ∧ t.toNat ≤ 122) ∧ t ≠ 'k') :
    stringToLowerCase s = token ↔ caseInsensitiveMatch token.data s.data = true := by
  rw [← flatMap_toLowerCodePoint_eq_iff s.data token.data htoken]
  unfold stringToLowerCase
  constructor
  · intro h; rw [← h]
  · intro h; rw [h]

theorem or_str_of_truthy_false (a : JSVal) (d : String) (h : a.truthy = false) :
    a.or (.str d) = .str d := by
  simp [JSVal.or, h]

theorem or_of_truthy (a b : JSVal) (h : a.truthy = true) : a.or b = a := by
  simp [JSVal.or, h]

theorem truthy_iff (a : JSVal) : a.truthy = true ↔ ∃ s, a = .str s ∧ s ≠ "" := by
  cases a <;> simp [JSVal.truthy]

end JS

namespace JS

theorem edit_token : ∀ t ∈ "edit".data, (97 ≤ t.toNat ∧ t.toNat ≤ 122) ∧ t ≠ 'k' := by
  decide

theorem full_token : ∀ t ∈ "full".data, (97 ≤ t.toNat ∧ t.toNat ≤ 122) ∧ t ≠ 'k' := by
  decide

/-- The call `(a || d).toLowerCase()` with a string default `d` never throws: it
lower-cases `a` when `a` is a non-empty string and `d` otherwise. -/
theorem or_default_toLowerCase (a : JSVal) (d : String) :
    (a.or (.str d)).toLowerCase
      = .ok (.str (stringToLowerCase (if a.truthy then a.toStr else d))) := by
  cases a with
  | undefined => rfl
  | null => rfl
  | str s =>
    by_cases h : (JSVal.str s).truthy = true
    · simp [JSVal.or, h, JSVal.toLowerCase, JSVal.toStr]
    · simp [JSVal.or, h, JSVal.toLowerCase]

/-- The comparison `(a || d).toLowerCase() === token`, for a default `d` that does not
match the token: it holds exactly when `a` is a string matching the token
case-insensitively. -/
theorem lowered_eq_token_iff (a : JSVal) (d token : String)
    (htoken : ∀ t ∈ token.data, (97 ≤ t.toNat ∧ t.toNat ≤ 122) ∧ t ≠ 'k')
    (hne : token ≠ "")
    (hd : caseInsensitiveMatch token.data d.data = false) :
    stringToLowerCase (if a.truthy then a.toStr else d) = token ↔
      ∃ s, a = .str s ∧ caseInsensitiveMatch token.data s.data = true := by
  rw [stringToLowerCase_eq_iff _ _ htoken]
  have hnil : caseInsensitiveMatch token.data [] = false := by
    cases hdata : token.data with
    | nil => exact absurd (String.ext hdata) hne
    | cons t ts => rfl
  cases a with
  | undefined => simp [JSVal.truthy, hd]
  | null => simp [JSVal.truthy, hd]
  | str s =>
    by_cases h : s = ""
    · subst h
      simp [JSVal.truthy, hd, hnil]
    · simp [JSVal.truthy, h, JSVal.toStr]

end JS

/-! ## `LwcDemo` -/

/-- The value `connectedCallback` computes, with the lower-casing made explicit. -/
theorem LwcDemo.connectedCallback_eq (self : LwcDemo) :
    self.connectedCallback = .ok { self with formMode :=
      (if (stringToLowerCase (if self.defaultMode.truthy then self.defaultMode.toStr else "view")
          = "edit") then JSVal.str "edit" else JSVal.str "view") } := by
  unfold LwcDemo.connectedCallback
  rw [or_default_toLowerCase]
  simp [bind, Except.bind, pure, Except.pure]

/-- The value `layoutType` computes, with the lower-casing made explicit. -/
theorem LwcDemo.layoutType_eq (self : LwcDemo) :
    self.layoutType = .ok
      (if (stringToLowerCase (if self.layout.truthy then self.layout.toStr else "Compact")
          = "full") then .str "Full" else .str "Compact") := by
  unfold LwcDemo.layoutType
  rw [or_default_toLowerCase]
  simp [bind, Except.bind, pure, Except.pure]

/-- C1: `connectedCallback` never throws and changes `formMode` only; it sets
`formMode` to `'edit'` exactly when `defaultMode` is a string matching the token "edit"
case-insensitively, and to `'view'` for every other value, a missing or empty
`defaultMode` included. -/
theorem LwcDemo.connectedCallback_formMode (self : LwcDemo) :
    ∃ self1, self.connectedCallback = .ok self1 ∧
      self1 = { self with formMode := self1.formMode } ∧
      (self1.formMode = .str "edit" ↔
        ∃ s, self.defaultMode = .str s ∧ caseInsensitiveMatch "edit".data s.data = true) ∧
      (self1.formMode = .str "view" ↔
        ¬ ∃ s, self.defaultMode = .str s ∧ caseInsensitiveMatch "edit".data s.data = true) := by
  have hiff := lowered_eq_token_iff self.defaultMode "view" "edit" edit_token (by decide)
    (by decide)
  refine ⟨_, self.connectedCallback_eq, rfl, ?_, ?_⟩
  all_goals
    rw [← hiff]
    by_cases h : stringToLowerCase
        (if self.defaultMode.truthy then self.defaultMode.toStr else "view") = "edit"
    · simp [h]
    · simp [h]

/-- The examples of the specification: "edit", "Edit" and "EDIT" give `'edit'`; "view",
an empty string and a missing value give `'view'`, and so does "edit" followed by a
blank or a letter. -/
theorem LwcDemo.connectedCallback_examples (self : LwcDemo) :
    (∀ m ∈ ["edit", "Edit", "EDIT", "eDiT"],
      ({ self with defaultMode := .str m } : LwcDemo).connectedCallback
        = .ok { self with defaultMode := .str m, formMode := .str "edit" }) ∧
    (∀ m ∈ [JSVal.str "view", .str "", .undefined, .null, .str "edit ", .str "edits"],
      ({ self with defaultMode := m } : LwcDemo).connectedCallback
        = .ok { self with defaultMode := m, formMode := .str "view" }) := by
  constructor
  · intro m hm
    simp only [List.mem_cons, List.mem_singleton, List.not_mem_nil, or_false] at hm
    rcases hm with rfl | rfl | rfl | rfl <;> rfl
  · intro m hm
    simp only [List.mem_cons, List.mem_singleton, List.not_mem_nil, or_false] at hm
    rcases hm with rfl | rfl | rfl | rfl | rfl | rfl <;> rfl

/-- C2: `layoutType` never throws; it returns `'Full'` exactly when `layout` is a string
matching the token "full" case-insensitively and `'Compact'` for every other value, a
missing or empty `layout` included, so the result is always one of the two tokens. -/
theorem LwcDemo.layoutType_token (self : LwcDemo) :
    ∃ v, self.layoutType = .ok v ∧
      (v = .str "Full" ∨ v = .str "Compact") ∧
      (v = .str "Full" ↔
        ∃ s, self.layout = .str s ∧ caseInsensitiveMatch "full".data s.data = true) ∧
      (v = .str "Compact" ↔
        ¬ ∃ s, self.layout = .str s ∧ caseInsensitiveMatch "full".data s.data = true) := by
  have hiff := lowered_eq_token_iff self.layout "Compact" "full" full_token (by decide)
    (by decide)
  refine ⟨_, self.layoutType_eq, ?_, ?_, ?_⟩
  all_goals
    try rw [← hiff]
    by_cases h : stringToLowerCase
        (if self.layout.truthy then self.layout.toStr else "Compact") = "full"
    · simp [h]
    · simp [h]

/-- The examples of the specification for the layout: "Full", "full" and "FULL" give
`'Full'`; "Compact", an empty string, a missing value and any other text give
`'Compact'`. -/
theorem LwcDemo.layoutType_examples (self : LwcDemo) :
    (∀ l ∈ ["Full", "full", "FULL", "fUlL"],
      ({ self with layout := .str l } : LwcDemo).layoutType = .ok (.str "Full")) ∧
    (∀ l ∈ [JSVal.str "Compact", .str "", .undefined, .null, .str "fuller", .str " full"],
      ({ self with layout := l } : LwcDemo).layoutType = .ok (.str "Compact")) := by
  constructor
  · intro l hl
    simp only [List.mem_cons, List.mem_singleton, List.not_mem_nil, or_false] at hl
    rcases hl with rfl | rfl | rfl | rfl <;> rfl
  · intro l hl
    simp only [List.mem_cons, List.mem_singleton, List.not_mem_nil, or_false] at hl
    rcases hl with rfl | rfl | rfl | rfl | rfl | rfl <;> rfl

/-- C4: for every prior state, whatever its `formMode`, and every success event,
`handleSuccess` leaves `formMode` equal to `'view'`; the configuration fields are left
as they were. -/
theorem LwcDemo.handleSuccess_formMode (self : LwcDemo) (event : SuccessEvent) :
    (self.handleSuccess event).formMode = .str "view" ∧
      (self.handleSuccess event).recordId = self.recordId ∧
      (self.handleSuccess event).defaultMode = self.defaultMode ∧
      (self.handleSuccess event).layout = self.layout := by
  exact ⟨rfl, rfl, rfl, rfl⟩

/-- C7: `handleSuccess` dispatches exactly one event, a toast of variant `'success'`
titled "Saved".  Its message contains the identifier `event.detail.id` whenever the
response carries one; when the response carries none (a missing or empty `id`), the
message is built from `recordId` and contains it. -/
theorem LwcDemo.handleSuccess_toast (self : LwcDemo) (event : SuccessEvent) :
    ∃ toast, (self.handleSuccess event).dispatched = self.dispatched ++ [toast] ∧
      toast.title = .str "Saved" ∧
      toast.variant = .str "success" ∧
      (∀ i, event.detail.id = .str i →
        ∃ pre post, toast.message = .str (pre ++ i ++ post)) ∧
      (event.detail.id.truthy = false →
        toast.message = .str ("Record " ++ self.recordId.toStr ++ " was saved successfully") ∧
        ∀ r, self.recordId = .str r →
          ∃ pre post, toast.message = .str (pre ++ r ++ post)) := by
  refine ⟨_, rfl, rfl, rfl, ?_, ?_⟩
  · intro i hi
    by_cases h : i = ""
    · subst h
      refine ⟨"Record " ++ (event.detail.id.or self.recordId).toStr
        ++ " was saved successfully", "", ?_⟩
      simp
    · refine ⟨"Record ", " was saved successfully", ?_⟩
      simp [hi, JSVal.or, JSVal.truthy, h, JSVal.toStr]
  · intro hf
    refine ⟨by simp [JSVal.or, hf], ?_⟩
    intro r hr
    refine ⟨"Record ", " was saved successfully", ?_⟩
    simp [JSVal.or, hf, hr, JSVal.toStr]

/-- The scenario of the specification: a save resolving with id "003xx" on a form in
edit mode dispatches one success toast whose message contains "003xx", and a response
without an id on the record "001AA" gives a message containing "001AA". -/
theorem LwcDemo.handleSuccess_toast_witness :
    (∃ toast,
      (LwcDemo.handleSuccess (LwcDemo.switchToEdit (LwcDemo.init .undefined (.str "Contact")))
        { detail := { id := .str "003xx" } }).dispatched = [toast] ∧
      ∃ pre post, toast.message = .str (pre ++ "003xx" ++ post)) ∧
    (∃ toast,
      (LwcDemo.handleSuccess (LwcDemo.init (.str "001AA") (.str "Account"))
        { detail := { id := .undefined } }).dispatched = [toast] ∧
      ∃ pre post, toast.message = .str (pre ++ "001AA" ++ post)) := by
  constructor
  · obtain ⟨toast, h1, _, _, h4, _⟩ :=
      LwcDemo.handleSuccess_toast (LwcDemo.switchToEdit (LwcDemo.init .undefined (.str "Contact")))
        { detail := { id := .str "003xx" } }
    exact ⟨toast, h1, h4 "003xx" rfl⟩
  · obtain ⟨toast, h1, _, _, _, h5⟩ :=
      LwcDemo.handleSuccess_toast (LwcDemo.init (.str "001AA") (.str "Account"))
        { detail := { id := .undefined } }
    exact ⟨toast, h1, (h5 rfl).2 "001AA" rfl⟩

/-- C8: `handleError` dispatches exactly one event, a toast of variant `'error'` titled
"Error".  Its message is exactly the message of the failure when the error carries one
(a non-empty string), and is the fixed text 'There was a problem saving the record.'
when the error carries none: no `detail`, no `message`, or an empty one. -/
theorem LwcDemo.handleError_toast (self : LwcDemo) (event : ErrorEvent) :
    ∃ toast, (self.handleError event).dispatched = self.dispatched ++ [toast] ∧
      toast.title = .str "Error" ∧
      toast.variant = .str "error" ∧
      (∀ d m, event.detail = some d → d.message = .str m → m ≠ "" →
        toast.message = .str m) ∧
      ((event.detail = none ∨ ∃ d, event.detail = some d ∧ d.message.truthy = false) →
        toast.message = .str "There was a problem saving the record.") := by
  refine ⟨_, rfl, rfl, rfl, ?_, ?_⟩
  · intro d m hd hm hne
    simp [hd, hm, JSVal.or, JSVal.truthy, hne]
  · rintro (hn | ⟨d, hd, hf⟩)
    · simp [hn, JSVal.or, JSVal.truthy]
    · simp [hd, JSVal.or, hf]

/-- The scenario of the specification: a save rejected with the message
"DUPLICATE_VALUE" dispatches one error toast with exactly that message, and an error
event without a detail gives the fixed text. -/
theorem LwcDemo.handleError_toast_witness :
    (∃ toast,
      (LwcDemo.handleError (LwcDemo.init .undefined (.str "Contact"))
        { detail := some { message := .str "DUPLICATE_VALUE" } }).dispatched = [toast] ∧
      toast.variant = .str "error" ∧ toast.message = .str "DUPLICATE_VALUE") ∧
    (∃ toast,
      (LwcDemo.handleError (LwcDemo.init .undefined (.str "Contact"))
        { detail := none }).dispatched = [toast] ∧
      toast.variant = .str "error" ∧
      toast.message = .str "There was a problem saving the record.") := by
  constructor
  · obtain ⟨toast, h1, _, h3, h4, _⟩ :=
      LwcDemo.handleError_toast (LwcDemo.init .undefined (.str "Contact"))
        { detail := some { message := .str "DUPLICATE_VALUE" } }
    exact ⟨toast, h1, h3, h4 _ "DUPLICATE_VALUE" rfl rfl (by decide)⟩
  · obtain ⟨toast, h1, _, h3, _, h5⟩ :=
      LwcDemo.handleError_toast (LwcDemo.init .undefined (.str "Contact")) { detail := none }
    exact ⟨toast, h1, h3, h5 (Or.inl rfl)⟩

/-! ## Plain objects -/

namespace JS

theorem Obj.hasOwn_set_same (o : Obj) (k v : String) (hk : k ≠ "__proto__") :
    Obj.hasOwn (Obj.set o k v) k = true := by
  induction o with
  | nil => simp [Obj.set, Obj.hasOwn, hk]
  | cons p rest ih =>
    obtain ⟨k1, v1⟩ := p
    by_cases h : k1 = k
    · simp [Obj.set, Obj.hasOwn, h]
    · simp [Obj.set, Obj.hasOwn, h, ih]

theorem Obj.get_set_same (o : Obj) (k v : String) (hk : k ≠ "__proto__") :
    Obj.get (Obj.set o k v) k = .str v := by
  induction o with
  | nil => simp [Obj.set, Obj.get, hk]
  | cons p rest ih =>
    obtain ⟨k1, v1⟩ := p
    by_cases h : k1 = k
    · simp [Obj.set, Obj.get, h]
    · simp [Obj.set, Obj.get, h, ih]

theorem Obj.hasOwn_set_other (o : Obj) (k g v : String) (hg : g ≠ k) :
    Obj.hasOwn (Obj.set o k v) g = Obj.hasOwn o g := by
  induction o with
  | nil =>
    by_cases hk : k = "__proto__"
    · simp [Obj.set, hk]
    · simp [Obj.set, Obj.hasOwn, hk, Ne.symm hg]
  | cons p rest ih =>
    obtain ⟨k1, v1⟩ := p
    by_cases h : k1 = k
    · subst h
      simp [Obj.set, Obj.hasOwn, Ne.symm hg]
    · by_cases h2 : k1 = g
      · subst h2
        simp [Obj.set, Obj.hasOwn, h]
      · simp [Obj.set, Obj.hasOwn, h, h2, ih]

theorem Obj.get_set_other (o : Obj) (k g v : String) (hg : g ≠ k) :
    Obj.get (Obj.set o k v) g = Obj.get o g := by
  induction o with
  | nil =>
    by_cases hk : k = "__proto__"
    · simp [Obj.set, hk]
    · simp [Obj.set, Obj.get, hk, Ne.symm hg]
  | cons p rest ih =>
    obtain ⟨k1, v1⟩ := p
    by_cases h : k1 = k
    · subst h
      simp [Obj.set, Obj.get, Ne.symm hg]
    · by_cases h2 : k1 = g
      · subst h2
        simp [Obj.set, Obj.get, h]
      · simp [Obj.set, Obj.get, h, h2, ih]

/-- After the write `o[k] = v` the read `o[k]` yields `v`, for every key but
`__proto__`. -/
theorem Obj.read_set_same (o : Obj) (k v : String) (hk : k ≠ "__proto__") :
    Obj.read (Obj.set o k v) k = .value (.str v) := by
  simp [Obj.read, Obj.hasOwn_set_same o k v hk, Obj.get_set_same o k v hk]

/-- The write `o[k] = v` changes the read of no other key. -/
theorem Obj.read_set_other (o : Obj) (k g v : String) (hg : g ≠ k) :
    Obj.read (Obj.set o k v) g = Obj.read o g := by
  simp [Obj.read, Obj.hasOwn_set_other o k g v hg, Obj.get_set_other o k g v hg]

end JS

/-! ## `ContactManager` (LWC) and `ContactManagerHelper` (Aura) -/

/-- The claim C6 fails at the field name `__proto__`: on the empty draft, writing "Ada"
and then "Grace" to it stores nothing, the draft still has no own property, and reading
the field back yields the prototype object, not "Grace". -/
theorem ContactManager.handleInputChange_proto_not_stored :
    ((ContactManager.handleInputChange ContactManager.init
        { target := { dataset := { field := .str "__proto__" }, value := "Ada" } }).handleInputChange
        { target := { dataset := { field := .str "__proto__" }, value := "Grace" } }).contact
      = [] ∧
    Obj.read ((ContactManager.handleInputChange ContactManager.init
        { target := { dataset := { field := .str "__proto__" }, value := "Ada" } }).handleInputChange
        { target := { dataset := { field := .str "__proto__" }, value := "Grace" } }).contact
        "__proto__" = .inherited "__proto__" ∧
    Obj.read ((ContactManager.handleInputChange ContactManager.init
        { target := { dataset := { field := .str "__proto__" }, value := "Ada" } }).handleInputChange
        { target := { dataset := { field := .str "__proto__" }, value := "Grace" } }).contact
        "__proto__" ≠ .value (.str "Grace") := by
  refine ⟨rfl, ?_, ?_⟩ <;> decide

/-- C6, amended: two changes of the same field in a row, with the values `v1` and then
`v2`, leave `v2` in that field of the draft for every field name other than `__proto__`;
for every field name, every other field of the draft reads as it did before the two
changes, and the contact list is not touched. -/
theorem ContactManager.handleInputChange_last_write_wins (self : ContactManager)
    (f : JSVal) (v1 v2 : String) :
    let first : InputEvent := { target := { dataset := { field := f }, value := v1 } }
    let second : InputEvent := { target := { dataset := { field := f }, value := v2 } }
    let after := (self.handleInputChange first).handleInputChange second
    (f.toStr ≠ "__proto__" → Obj.read after.contact f.toStr = .value (.str v2)) ∧
      (∀ g, g ≠ f.toStr → Obj.read after.contact g = Obj.read self.contact g) ∧
      after.contacts = self.contacts := by
  refine ⟨?_, ?_, rfl⟩
  · intro hf
    simp only [ContactManager.handleInputChange]
    exact Obj.read_set_same _ _ _ hf
  · intro g hg
    simp only [ContactManager.handleInputChange]
    rw [Obj.read_set_other _ _ _ _ hg, Obj.read_set_other _ _ _ _ hg]

/-- The example of the specification: "Ada" and then "Grace" written to `name` leave
"Grace" there, and the `email` entered before is still there. -/
theorem ContactManager.handleInputChange_last_write_wins_witness :
    Obj.read ((ContactManager.handleInputChange
        { ContactManager.init with contact := [("email", .str "ada@example.org")] }
        { target := { dataset := { field := .str "name" }, value := "Ada" } }).handleInputChange
        { target := { dataset := { field := .str "name" }, value := "Grace" } }).contact
        "name" = .value (.str "Grace") ∧
    Obj.read ((ContactManager.handleInputChange
        { ContactManager.init with contact := [("email", .str "ada@example.org")] }
        { target := { dataset := { field := .str "name" }, value := "Ada" } }).handleInputChange
        { target := { dataset := { field := .str "name" }, value := "Grace" } }).contact
        "email" = .value (.str "ada@example.org") := by
  have h := ContactManager.handleInputChange_last_write_wins
    { ContactManager.init with contact := [("email", .str "ada@example.org")] }
    (.str "name") "Ada" "Grace"
  refine ⟨h.1 (by decide), ?_⟩
  rw [h.2.1 "email" (by decide)]
  decide

/-- The claim C3 fails for the LWC component: after a save of the draft
`{ LastName: 'Lovelace' }` that succeeds, the draft has no `sobjectType` property, so it
does not carry the Contact type tag. -/
theorem ContactManager.saveContact_success_no_type_tag :
    Obj.get ((ContactManager.saveContact
        { ContactManager.init with contact := [("LastName", .str "Lovelace")] }).saveContactSettled
        (.fulfilled ())).contact "sobjectType" = .undefined ∧
    Obj.get ((ContactManager.saveContact
        { ContactManager.init with contact := [("LastName", .str "Lovelace")] }).saveContactSettled
        (.fulfilled ())).contact "sobjectType" ≠ .str "Contact" := by
  constructor
  · rfl
  · decide

/-- C3, amended: after a save that succeeds none of the fields of the draft remain,
whatever the draft was.  The LWC component leaves the empty object, which has no own
property, the type tag included; the Aura helper leaves an object whose only own
property is the type tag `sobjectType` with the value 'Contact'. -/
theorem saveContact_success_resets_draft (self : ContactManager)
    (component : ContactManagerHelper.Component)
    (response : ContactManagerHelper.Response JSVal) (hstate : response.state = "SUCCESS") :
    (self.saveContact.saveContactSettled (.fulfilled ())).contact = [] ∧
      (∀ k, Obj.get (self.saveContact.saveContactSettled (.fulfilled ())).contact k
        = .undefined) ∧
      (ContactManagerHelper.saveContactCallback (ContactManagerHelper.saveContact component)
        response).contact = [("sobjectType", .str "Contact")] ∧
      Obj.get (ContactManagerHelper.saveContactCallback
        (ContactManagerHelper.saveContact component) response).contact "sobjectType"
        = .str "Contact" ∧
      (∀ k, k ≠ "sobjectType" →
        Obj.get (ContactManagerHelper.saveContactCallback
          (ContactManagerHelper.saveContact component) response).contact k = .undefined) := by
  have haura : (ContactManagerHelper.saveContactCallback
      (ContactManagerHelper.saveContact component) response).contact
      = [("sobjectType", .str "Contact")] := by
    simp [ContactManagerHelper.saveContactCallback, hstate]
  refine ⟨rfl, fun k => rfl, haura, ?_, ?_⟩
  · rw [haura]; rfl
  · intro k hk
    rw [haura]
    simp [Obj.get, Ne.symm hk]

/-- The amended C3 on the draft `{ LastName: 'Lovelace' }`: both components drop
`LastName`, and only the Aura helper leaves the type tag. -/
theorem saveContact_success_resets_draft_witness :
    Obj.get ((ContactManager.saveContact
        { ContactManager.init with contact := [("LastName", .str "Lovelace")] }).saveContactSettled
        (.fulfilled ())).contact "LastName" = .undefined ∧
    Obj.get (ContactManagerHelper.saveContactCallback (ContactManagerHelper.saveContact
        { contact := [("sobjectType", .str "Contact"), ("LastName", .str "Lovelace")],
          contacts := [], enqueued := [] })
        { state := "SUCCESS", returnValue := .str "003xx" }).contact "LastName" = .undefined := by
  have h := saveContact_success_resets_draft
    { ContactManager.init with contact := [("LastName", .str "Lovelace")] }
    { contact := [("sobjectType", .str "Contact"), ("LastName", .str "Lovelace")],
      contacts := [], enqueued := [] }
    { state := "SUCCESS", returnValue := .str "003xx" } rfl
  exact ⟨h.2.1 "LastName", h.2.2.2.2 "LastName" (by decide)⟩

/-- C5: a failed submit changes neither the mode nor the draft nor the list.
`handleError` leaves `formMode` as it was, for every prior state and error event; a save
of the LWC component that is rejected, and a save of the Aura helper whose response has
a state other than "SUCCESS", leave the draft contact and the contact list equal to
their values before the submit. -/
theorem failed_submit_preserves_state (demo : LwcDemo) (event : ErrorEvent)
    (self : ContactManager) (error : JSVal)
    (component : ContactManagerHelper.Component)
    (response : ContactManagerHelper.Response JSVal) (hstate : response.state ≠ "SUCCESS") :
    (demo.handleError event).formMode = demo.formMode ∧
      (self.saveContact.saveContactSettled (.rejected error)).contact = self.contact ∧
      (self.saveContact.saveContactSettled (.rejected error)).contacts = self.contacts ∧
      (ContactManagerHelper.saveContactCallback (ContactManagerHelper.saveContact component)
        response).contact = component.contact ∧
      (ContactManagerHelper.saveContactCallback (ContactManagerHelper.saveContact component)
        response).contacts = component.contacts := by
  refine ⟨rfl, rfl, rfl, ?_, ?_⟩
  · simp [ContactManagerHelper.saveContactCallback, hstate, ContactManagerHelper.saveContact,
      ContactManagerHelper.enqueueAction]
  · simp [ContactManagerHelper.saveContactCallback, hstate, ContactManagerHelper.saveContact,
      ContactManagerHelper.enqueueAction]

/-- The scenario of the specification: with the draft `{ LastName: 'Lovelace' }` and the
form in edit mode, a save rejected with "DUPLICATE_VALUE" leaves the mode at `'edit'`
and "Lovelace" in the draft of both components. -/
theorem failed_submit_preserves_state_witness :
    (LwcDemo.handleError (LwcDemo.switchToEdit (LwcDemo.init .undefined (.str "Contact")))
      { detail := some { message := .str "DUPLICATE_VALUE" } }).formMode = .str "edit" ∧
    Obj.get ((ContactManager.saveContact
        { ContactManager.init with contact := [("LastName", .str "Lovelace")] }).saveContactSettled
        (.rejected (.str "DUPLICATE_VALUE"))).contact "LastName" = .str "Lovelace" ∧
    Obj.get (ContactManagerHelper.saveContactCallback (ContactManagerHelper.saveContact
        { contact := [("sobjectType", .str "Contact"), ("LastName", .str "Lovelace")],
          contacts := [], enqueued := [] })
        { state := "ERROR", returnValue := .null }).contact "LastName" = .str "Lovelace" := by
  have h := failed_submit_preserves_state
    (LwcDemo.switchToEdit (LwcDemo.init .undefined (.str "Contact")))
    { detail := some { message := .str "DUPLICATE_VALUE" } }
    { ContactManager.init with contact := [("LastName", .str "Lovelace")] }
    (.str "DUPLICATE_VALUE")
    { contact := [("sobjectType", .str "Contact"), ("LastName", .str "Lovelace")],
      contacts := [], enqueued := [] }
    { state := "ERROR", returnValue := .null } (by decide)
  refine ⟨h.1, ?_, ?_⟩
  · rw [h.2.1]; rfl
  · rw [h.2.2.2.1]; rfl

/-- C9: a fetch replaces the contact list wholesale or not at all, and never touches the
draft.  When the fetch of `loadContacts` (LWC) resolves with `r`, or the response to
`fetchContacts` (Aura) has state "SUCCESS" and return value `r`, the list is exactly
`r`, whatever it was; when the fetch is rejected, or the state is another one, the list
is what it was.  After `connectedCallback` on the initial state and a rejected fetch the
list is empty. -/
theorem fetch_replaces_list_or_nothing (self : ContactManager) (r : List Obj) (error : JSVal)
    (component : ContactManagerHelper.Component)
    (ok failed : ContactManagerHelper.Response (List Obj))
    (hok : ok.state = "SUCCESS") (hfailed : failed.state ≠ "SUCCESS") :
    ((self.loadContacts.loadContactsSettled (.fulfilled r)).contacts = r ∧
      (self.loadContacts.loadContactsSettled (.fulfilled r)).contact = self.contact) ∧
    ((self.loadContacts.loadContactsSettled (.rejected error)).contacts = self.contacts ∧
      (self.loadContacts.loadContactsSettled (.rejected error)).contact = self.contact) ∧
    (ContactManager.init.connectedCallback.loadContactsSettled (.rejected error)).contacts = [] ∧
    ((ContactManagerHelper.fetchContactsCallback (ContactManagerHelper.fetchContacts component)
        ok).contacts = ok.returnValue ∧
      (ContactManagerHelper.fetchContactsCallback (ContactManagerHelper.fetchContacts component)
        ok).contact = component.contact) ∧
    ((ContactManagerHelper.fetchContactsCallback (ContactManagerHelper.fetchContacts component)
        failed).contacts = component.contacts ∧
      (ContactManagerHelper.fetchContactsCallback (ContactManagerHelper.fetchContacts component)
        failed).contact = component.contact) := by
  refine ⟨⟨rfl, rfl⟩, ⟨rfl, rfl⟩, rfl, ⟨?_, ?_⟩, ⟨?_, ?_⟩⟩
  · simp [ContactManagerHelper.fetchContactsCallback, hok]
  · simp [ContactManagerHelper.fetchContactsCallback, hok, ContactManagerHelper.fetchContacts,
      ContactManagerHelper.enqueueAction]
  · simp [ContactManagerHelper.fetchContactsCallback, hfailed,
      ContactManagerHelper.fetchContacts, ContactManagerHelper.enqueueAction]
  · simp [ContactManagerHelper.fetchContactsCallback, hfailed,
      ContactManagerHelper.fetchContacts, ContactManagerHelper.enqueueAction]

/-- A list of two contacts replaced by a fetch result of one contact: nothing of the old
list is left, in both components; with a failed fetch the two contacts stay. -/
theorem fetch_replaces_list_or_nothing_witness :
    (ContactManager.loadContactsSettled (ContactManager.loadContacts
        { ContactManager.init with
          contacts := [[("LastName", .str "Hopper")], [("LastName", .str "Turing")]] })
        (.fulfilled [[("LastName", .str "Lovelace")]])).contacts
      = [[("LastName", .str "Lovelace")]] ∧
    (ContactManagerHelper.fetchContactsCallback (ContactManagerHelper.fetchContacts
        { contact := [], contacts := [[("LastName", .str "Hopper")], [("LastName", .str "Turing")]],
          enqueued := [] })
        { state := "SUCCESS", returnValue := [[("LastName", .str "Lovelace")]] }).contacts
      = [[("LastName", .str "Lovelace")]] ∧
    (ContactManagerHelper.fetchContactsCallback (ContactManagerHelper.fetchContacts
        { contact := [], contacts := [[("LastName", .str "Hopper")], [("LastName", .str "Turing")]],
          enqueued := [] })
        { state := "ERROR", returnValue := [] }).contacts
      = [[("LastName", .str "Hopper")], [("LastName", .str "Turing")]] := by
  have h := fetch_replaces_list_or_nothing
    { ContactManager.init with
      contacts := [[("LastName", .str "Hopper")], [("LastName", .str "Turing")]] }
    [[("LastName", .str "Lovelace")]] .undefined
    { contact := [], contacts := [[("LastName", .str "Hopper")], [("LastName", .str "Turing")]],
      enqueued := [] }
    { state := "SUCCESS", returnValue := [[("LastName", .str "Lovelace")]] }
    { state := "ERROR", returnValue := [] } rfl (by decide)
  exact ⟨h.1.1, h.2.2.2.1.1, h.2.2.2.2.1⟩

/-- C10: a save does not patch the contact list.  The success callback of a save issues
exactly one new list request (`getContacts`) and nothing else, in the LWC component and
in the Aura helper, and leaves the contact list equal to its value before the save; the
failure path issues no request at all.  Among all the events of either component, the
only one that can change the contact list is the successful response to a list
request. -/
theorem save_refetches_without_patching (self : ContactManager) (error : JSVal)
    (component : ContactManagerHelper.Component)
    (ok failed : ContactManagerHelper.Response JSVal)
    (hok : ok.state = "SUCCESS") (hfailed : failed.state ≠ "SUCCESS") :
    ((self.saveContactSettled (.fulfilled ())).apexCalls = self.apexCalls ++ [.getContacts] ∧
      (self.saveContact.saveContactSettled (.fulfilled ())).apexCalls
        = self.apexCalls ++ [.saveContact self.contact, .getContacts] ∧
      (self.saveContact.saveContactSettled (.fulfilled ())).contacts = self.contacts) ∧
    ((self.saveContactSettled (.rejected error)).apexCalls = self.apexCalls ∧
      (self.saveContact.saveContactSettled (.rejected error)).apexCalls
        = self.apexCalls ++ [.saveContact self.contact] ∧
      (self.saveContact.saveContactSettled (.rejected error)).contacts = self.contacts) ∧
    ((ContactManagerHelper.saveContactCallback component ok).enqueued
        = component.enqueued ++ [.getContacts] ∧
      (ContactManagerHelper.saveContactCallback (ContactManagerHelper.saveContact component)
        ok).enqueued = component.enqueued ++ [.saveContact component.contact, .getContacts] ∧
      (ContactManagerHelper.saveContactCallback (ContactManagerHelper.saveContact component)
        ok).contacts = component.contacts) ∧
    ((ContactManagerHelper.saveContactCallback component failed).enqueued = component.enqueued ∧
      (ContactManagerHelper.saveContactCallback (ContactManagerHelper.saveContact component)
        failed).enqueued = component.enqueued ++ [.saveContact component.contact] ∧
      (ContactManagerHelper.saveContactCallback (ContactManagerHelper.saveContact component)
        failed).contacts = component.contacts) ∧
    (∀ e, (self.step e).contacts ≠ self.contacts → ∃ r, e = .loadSettled (.fulfilled r)) ∧
    (∀ e, (ContactManagerHelper.step component e).contacts ≠ component.contacts →
      ∃ response, e = .fetchResponse response ∧ response.state = "SUCCESS") := by
  refine ⟨⟨rfl, ?_, rfl⟩, ⟨rfl, rfl, rfl⟩, ⟨?_, ?_, ?_⟩, ⟨?_, ?_, ?_⟩, ?_, ?_⟩
  · simp [ContactManager.saveContactSettled, ContactManager.saveContactThen,
      ContactManager.loadContacts, ContactManager.saveContact]
  · simp [ContactManagerHelper.saveContactCallback, hok, ContactManagerHelper.fetchContacts,
      ContactManagerHelper.enqueueAction]
  · simp [ContactManagerHelper.saveContactCallback, hok, ContactManagerHelper.fetchContacts,
      ContactManagerHelper.enqueueAction, ContactManagerHelper.saveContact]
  · simp [ContactManagerHelper.saveContactCallback, hok, ContactManagerHelper.fetchContacts,
      ContactManagerHelper.enqueueAction, ContactManagerHelper.saveContact]
  · simp [ContactManagerHelper.saveContactCallback, hfailed]
  · simp [ContactManagerHelper.saveContactCallback, hfailed, ContactManagerHelper.saveContact,
      ContactManagerHelper.enqueueAction]
  · simp [ContactManagerHelper.saveContactCallback, hfailed, ContactManagerHelper.saveContact,
      ContactManagerHelper.enqueueAction]
  · intro e he
    cases e with
    | connected => exact absurd rfl he
    | inputChange event => exact absurd rfl he
    | save => exact absurd rfl he
    | saveSettled p =>
      cases p with
      | fulfilled u => exact absurd rfl he
      | rejected reason => exact absurd rfl he
    | loadSettled p =>
      cases p with
      | fulfilled r => exact ⟨r, rfl⟩
      | rejected reason => exact absurd rfl he
  · intro e he
    cases e with
    | fetch => exact absurd rfl he
    | save => exact absurd rfl he
    | fetchResponse response =>
      by_cases hs : response.state = "SUCCESS"
      · exact ⟨response, rfl, hs⟩
      · exact absurd (by simp [ContactManagerHelper.step,
          ContactManagerHelper.fetchContactsCallback, hs]) he
    | saveResponse response =>
      by_cases hs : response.state = "SUCCESS"
      · exact absurd (by simp [ContactManagerHelper.step,
          ContactManagerHelper.saveContactCallback, hs, ContactManagerHelper.fetchContacts,
          ContactManagerHelper.enqueueAction]) he
      · exact absurd (by simp [ContactManagerHelper.step,
          ContactManagerHelper.saveContactCallback, hs]) he

/-- The scenario of the specification: the draft `{ LastName: 'Lovelace' }` is saved with
an empty list on screen.  After the success callback the list is still empty, the calls
issued are the save and one list request, and the list holds the saved contact only once
the second list request has resolved with it; with a failed save no list request is
issued. -/
theorem save_refetches_without_patching_witness :
    ((ContactManager.saveContact
        { ContactManager.init with contact := [("LastName", .str "Lovelace")] }).saveContactSettled
        (.fulfilled ())).contacts = [] ∧
    ((ContactManager.saveContact
        { ContactManager.init with contact := [("LastName", .str "Lovelace")] }).saveContactSettled
        (.fulfilled ())).apexCalls
      = [.saveContact [("LastName", .str "Lovelace")], .getContacts] ∧
    (ContactManagerHelper.saveContactCallback (ContactManagerHelper.saveContact
        { contact := [("LastName", .str "Lovelace")], contacts := [], enqueued := [] })
        { state := "SUCCESS", returnValue := .str "003xx" }).enqueued
      = [.saveContact [("LastName", .str "Lovelace")], .getContacts] ∧
    (ContactManagerHelper.saveContactCallback (ContactManagerHelper.saveContact
        { contact := [("LastName", .str "Lovelace")], contacts := [], enqueued := [] })
        { state := "ERROR", returnValue := .null }).enqueued
      = [.saveContact [("LastName", .str "Lovelace")]] := by
  have h := save_refetches_without_patching
    { ContactManager.init with contact := [("LastName", .str "Lovelace")] } .undefined
    { contact := [("LastName", .str "Lovelace")], contacts := [], enqueued := [] }
    { state := "SUCCESS", returnValue := .str "003xx" }
    { state := "ERROR", returnValue := .null } rfl (by decide)
  exact ⟨h.1.2.2, h.1.2.1, h.2.2.1.2.1, h.2.2.2.1.2.1⟩
